import Mathlib

/-!
Shallow embedding of the choropleth-map core of `src/script.js`:
the color ramps (`getPriceColor`, `getScaleColor` and its three wrappers),
the style resolver (`getFeatureStyle`), the focus-filtered fine-layer
styling (`stylePostcode`), the zoom-triggered layer lifecycle
(`handleZoomChange`), the price-mode legend builder (`updateLegend`) and
the borough click handler (`onEachBorough`'s click callback).

JavaScript numbers are modelled as rationals (ℚ); `Math.round` is modelled
by `jsRound` (floor of x + 1/2, which agrees with JS round-half-up on all
inputs including negatives).  Colors in the source are CSS strings; the
strings produced by template interpolation `rgb(r, g, b)` are modelled by
the structured constructor `Color.rgb` so that channel values stay
inspectable.
-/

/-- A CSS color as the source manipulates it: either a literal string
(hex codes, `white`, `transparent`, ...) or the `rgb(r, g, b)` string
built by `getScaleColor`. -/
inductive Color where
  | css (s : String)
  | rgb (r g b : Int)
deriving DecidableEq, Repr

/-- The four display modes of `currentMode` in `script.js`. -/
inductive Mode where
  | price
  | crime
  | central
  | culture
deriving DecidableEq, Repr

/-- The four concrete property types of the dataset. -/
inductive PropType where
  | detached
  | semi
  | terraced
  | flat
deriving DecidableEq, Repr

/-- The value of the `currentType` select: `all` or one concrete type. -/
inductive PropSel where
  | all
  | specific (t : PropType)
deriving DecidableEq, Repr

/-- One region's metric record as stored in `boroughData[name]`:
`prices` maps a year to the type→price map for that year; the three
scores are numbers in the unit interval.  Year and type maps are
association lists looked up with `List.lookup`. -/
structure MetricRecord where
  prices : List (Int × List (PropType × ℚ))
  crime : ℚ
  central : ℚ
  culture : ℚ
deriving DecidableEq, Repr

/-- The global view state read by the styling functions:
`currentMode`, `currentYear`, `currentType`, `maxPrice` in `script.js`. -/
structure ViewState where
  currentMode : Mode
  currentYear : Int
  currentType : PropSel
  maxPrice : ℚ
deriving DecidableEq, Repr

/-- A point in the plane (longitude, latitude), as rationals. -/
abbrev Pt : Type := ℚ × ℚ

/-- A GeoJSON feature as the styling code uses it: its `properties.name`
key and its polygon ring. -/
structure Feature where
  name : String
  geometry : List Pt
deriving DecidableEq

/-- A Leaflet style object.  The source's style literals differ in which
keys they carry (`dashArray` and `interactive` appear only in some), so
those two fields are `Option`s recording presence. -/
structure Style where
  fillColor : Color
  weight : ℚ
  opacity : ℚ
  color : Color
  dashArray : Option String
  fillOpacity : ℚ
  interactive : Option Bool
deriving DecidableEq, Repr

/-- `Math.round` of JavaScript: round half toward positive infinity,
which is `floor (x + 1/2)` for every finite x (negatives included). -/
def jsRound (x : ℚ) : Int :=
  ⌊x + 1 / 2⌋

/-- An RGB triple, modelling the three-element arrays `[r, g, b]` that
`script.js` passes to `getScaleColor`. -/
structure RGB where
  r : Int
  g : Int
  b : Int
deriving DecidableEq, Repr

/-- `getPriceColor` of `script.js` (lines 423–433): the discrete price
ramp, a chain of strict greater-than tests from the highest break point
down, ending in the palest color. -/
def getPriceColor (price : ℚ) : Color :=
  if price > 1500000 then Color.css "#431407"
  else if price > 1200000 then Color.css "#7c2d12"
  else if price > 1000000 then Color.css "#c2410c"
  else if price > 800000 then Color.css "#ea580c"
  else if price > 600000 then Color.css "#f97316"
  else if price > 450000 then Color.css "#fb923c"
  else if price > 300000 then Color.css "#fdba74"
  else Color.css "#fed7aa"

/-- `getScaleColor` of `script.js` (lines 447–453): per-channel linear
interpolation `round (start + (end - start) * value)`.  Note the source
performs no clamping of `value`. -/
def getScaleColor (value : ℚ) (startRGB endRGB : RGB) : Color :=
  Color.rgb
    (jsRound (startRGB.r + (endRGB.r - startRGB.r) * value))
    (jsRound (startRGB.g + (endRGB.g - startRGB.g) * value))
    (jsRound (startRGB.b + (endRGB.b - startRGB.b) * value))

/-- `getCrimeColor`: white to red. -/
def getCrimeColor (value : ℚ) : Color :=
  getScaleColor value ⟨255, 255, 255⟩ ⟨220, 38, 38⟩

/-- `getCentralColor`: white to blue. -/
def getCentralColor (value : ℚ) : Color :=
  getScaleColor value ⟨255, 255, 255⟩ ⟨37, 99, 235⟩

/-- `getCultureColor`: white to amber. -/
def getCultureColor (value : ℚ) : Color :=
  getScaleColor value ⟨255, 255, 255⟩ ⟨217, 119, 6⟩

/-- The price-mode value computation inlined in `getFeatureStyle`
(lines 301–317): look up the year's type map; absent year gives 0; with
`currentType = all` take the mean of the values present (0 when the map
is empty, mirroring `values.length ? sum / length : 0`); with a concrete
type take that entry, defaulting to 0 (`prices[currentType] || 0`). -/
def resolvePriceValue (year : Int) (ptype : PropSel) (data : MetricRecord) : ℚ :=
  match data.prices.lookup year with
  | none => 0
  | some prices =>
    match ptype with
    | PropSel.all =>
      let values := prices.map Prod.snd
      if values.length = 0 then 0 else values.sum / (values.length : ℚ)
    | PropSel.specific t => (prices.lookup t).getD 0

/-- The fixed style `getFeatureStyle` returns when `boroughData` has no
record for the feature (lines 289–295): light grey fill at reduced
opacity; `weight` and `color` come from the call site's arguments. -/
def unknownStyle (weight : ℚ) (borderColor : Color) : Style :=
  { fillColor := Color.css "#ccc"
    weight := weight
    opacity := 1
    color := borderColor
    dashArray := none
    fillOpacity := 0.2
    interactive := none }

/-- `getFeatureStyle` of `script.js` (lines 284–342).  The first numeric
parameter `defaultOpacity` is accepted and never read, exactly as in the
source (the body shadows it with `let opacity = fillOp`).  The store
argument stands for the global `boroughData` cache. -/
def getFeatureStyle (st : ViewState) (store : List (String × MetricRecord))
    (feature : Feature) (_defaultOpacity : ℚ) (weight : ℚ)
    (borderColor : Color) (fillOp : ℚ) : Style :=
  match store.lookup feature.name with
  | none => unknownStyle weight borderColor
  | some data =>
    let color : Color :=
      match st.currentMode with
      | Mode.price =>
        let value := resolvePriceValue st.currentYear st.currentType data
        if value > st.maxPrice then Color.css "#431407"
        else getPriceColor value
      | Mode.crime => getCrimeColor data.crime
      | Mode.central => getCentralColor data.central
      | Mode.culture => getCultureColor data.culture
    { fillColor := color
      weight := weight
      opacity := 1
      color := borderColor
      dashArray := some ""
      fillOpacity := fillOp
      interactive := none }

/-- The consecutive edges of a polygon ring, the last vertex joined back
to the first. -/
def ringEdges (ring : List Pt) : List (Pt × Pt) :=
  match ring with
  | [] => []
  | x :: xs => (x :: xs).zip (xs ++ [x])

/-- Modelled from the spec: one step of the external turf library's
even-odd ray cast — the edge from `a` to `b` crosses the horizontal ray
from `p` when the endpoints straddle p's latitude and the crossing lies
to the right of p.  (Division by zero cannot fire: when the latitudes are
equal the straddle test is false, and ℚ division is total.) -/
def edgeCrossing (p a b : Pt) : Bool :=
  (decide (a.2 > p.2) != decide (b.2 > p.2)) &&
    decide (p.1 < (b.1 - a.1) * (p.2 - a.2) / (b.2 - a.2) + a.1)

/-- Modelled from the spec: `turf.booleanPointInPolygon` — even-odd
ray-casting point-in-polygon containment of the fine region's
representative point against the focus polygon. -/
def booleanPointInPolygon (p : Pt) (ring : List Pt) : Bool :=
  (ringEdges ring).foldl
    (fun inside e => if edgeCrossing p e.1 e.2 then !inside else inside) false

/-- Modelled from the spec: `turf.center` — the representative point of a
feature is its bounding-box centroid. -/
def turfCenter (ring : List Pt) : Pt :=
  match ring with
  | [] => (0, 0)
  | q :: qs =>
    let xs := (q :: qs).map Prod.fst
    let ys := (q :: qs).map Prod.snd
    ((xs.foldl min q.1 + xs.foldl max q.1) / 2,
     (ys.foldl min q.2 + ys.foldl max q.2) / 2)

/-- The style literal `stylePostcode` returns for a postcode outside the
active focus polygon (lines 266–273): fully transparent, zero weight,
non-interactive. -/
def hiddenPostcodeStyle : Style :=
  { fillColor := Color.css "transparent"
    weight := 0
    opacity := 0
    color := Color.css "transparent"
    dashArray := none
    fillOpacity := 0
    interactive := some false }

/-- `stylePostcode` of `script.js` (lines 255–282).  `turfDefined` models
the `typeof turf !== 'undefined'` guard; `activeBorough` models the
global `activeBoroughGeometry` (null or the focused borough feature). -/
def stylePostcode (st : ViewState) (store : List (String × MetricRecord))
    (turfDefined : Bool) (activeBorough : Option Feature)
    (feature : Feature) : Style :=
  match activeBorough, turfDefined with
  | some geom, true =>
    let center := turfCenter feature.geometry
    let isInside := booleanPointInPolygon center geom.geometry
    if !isInside then hiddenPostcodeStyle
    else getFeatureStyle st store feature 0.9 1.5 (Color.css "#fff") 0.9
  | _, _ => getFeatureStyle st store feature 0.9 1 (Color.css "#eee") 0.8

/-- `MAP_ZOOM_SELECTED` of `script.js`. -/
def MAP_ZOOM_SELECTED : ℚ := 12

/-- Which of the two spatial layers (and the fine layer's label markers)
are currently added to the map. -/
structure LayerState where
  boroughMounted : Bool
  postcodeMounted : Bool
  labelsMounted : Bool
deriving DecidableEq, Repr

/-- The mounted state right after `loadData`: the borough layer is added
to the map, the postcode layer is created but not added. -/
def initialLayers : LayerState :=
  { boroughMounted := true, postcodeMounted := false, labelsMounted := false }

/-- `handleZoomChange` of `script.js` (lines 185–216), as a transition on
the mounted-layer state: at or above `MAP_ZOOM_SELECTED - 1` remove the
borough layer if present and add the postcode layer (with its label
markers) if absent; below, remove the postcode layer (and labels) if
present and add the borough layer if absent. -/
def handleZoomChange (zoom : ℚ) (s : LayerState) : LayerState :=
  if zoom ≥ MAP_ZOOM_SELECTED - 1 then
    let s1 := if s.boroughMounted then { s with boroughMounted := false } else s
    if !s1.postcodeMounted then
      { s1 with postcodeMounted := true, labelsMounted := true }
    else s1
  else
    let s1 :=
      if s.postcodeMounted then
        { s with postcodeMounted := false, labelsMounted := false }
      else s
    if !s1.boroughMounted then { s1 with boroughMounted := true } else s1

/-- A sequence of zoom-end notifications applied from the initial state. -/
def runZoom (zs : List ℚ) : LayerState :=
  zs.foldl (fun s z => handleZoomChange z s) initialLayers

/-- Exactly one of the two spatial layers is mounted. -/
def exactlyOneLayer (s : LayerState) : Prop :=
  (s.boroughMounted = true ∧ s.postcodeMounted = false) ∨
    (s.boroughMounted = false ∧ s.postcodeMounted = true)

instance (s : LayerState) : Decidable (exactlyOneLayer s) := by
  unfold exactlyOneLayer
  infer_instance

/-- The `grades` array of `updateLegend`'s price branch (line 553). -/
def legendGrades : List ℚ :=
  [0, 400000, 500000, 600000, 800000, 1000000, 1200000, 1500000]

/-- The `labels` array of `updateLegend`'s price branch (line 554). -/
def legendLabels : List String :=
  ["< £400k", "£400k+", "£500k+", "£600k+", "£800k+", "£1M+", "£1.2M+", "> £1.5M"]

/-- The price branch of `updateLegend` (lines 552–565) as the list of
(swatch color, label) pairs it renders: the i-th swatch is
`getPriceColor (grades[i] + 1)`.  (The source also computes a `nextPrice`
local that it never uses.) -/
def updateLegendPrice : List (Color × String) :=
  (legendGrades.zip legendLabels).map (fun gl => (getPriceColor (gl.1 + 1), gl.2))

/-- The break points of the discrete price ramp `getPriceColor`, in
ascending order. -/
def rampBreakPoints : List ℚ :=
  [0, 300000, 450000, 600000, 800000, 1000000, 1200000, 1500000]

/-- The top-level function names declared in `script.js`. -/
def definedFunctions : List String :=
  ["initMap", "initControls", "loadData", "getCombinedData",
   "handleZoomChange", "styleBorough", "stylePostcode", "getFeatureStyle",
   "onEachBorough", "onEachPostcode", "highlightFeature",
   "resetBoroughHighlight", "resetPostcodeHighlight", "getAveragePrice",
   "getPriceColor", "getCrimeColor", "getCentralColor", "getCultureColor",
   "getScaleColor", "onEachFeature", "resetHighlight", "zoomToFeature",
   "updateMapVisuals", "updateSidebar", "getScoreClass", "getScoreText",
   "updateLegend"]

/-- Outcome of running a statement that calls a global identifier. -/
inductive JsResult where
  | ok
  | referenceError (name : String)
deriving DecidableEq, Repr

/-- Calling a global function name: a ReferenceError when the name is not
among the script's declarations. -/
def callFunction (env : List String) (name : String) : JsResult :=
  if name ∈ env then JsResult.ok else JsResult.referenceError name

/-- The observable effects of the borough click handler before it
finishes or throws. -/
structure ClickState where
  activeBorough : Option Feature
  viewportFitted : Bool
  postcodeRestyled : Bool
deriving DecidableEq

/-- The click callback installed by `onEachBorough` (lines 349–359): set
the active focus feature, fit the viewport to the clicked layer's bounds,
restyle the postcode layer when it exists, then call the global
`updatePostcodeLabels`. -/
def onBoroughClick (feature : Feature) (postcodeLayerExists : Bool)
    (s : ClickState) : ClickState × JsResult :=
  let s1 := { s with activeBorough := some feature }
  let s2 := { s1 with viewportFitted := true }
  let s3 := if postcodeLayerExists then { s2 with postcodeRestyled := true } else s2
  (s3, callFunction definedFunctions "updatePostcodeLabels")

/-- Spec-side ramp table: the descending break points of the price ramp
paired with their bucket colors, as the spec describes the lookup. -/
def priceBreakTable : List (ℚ × Color) :=
  [(1500000, Color.css "#431407"), (1200000, Color.css "#7c2d12"),
   (1000000, Color.css "#c2410c"), (800000, Color.css "#ea580c"),
   (600000, Color.css "#f97316"), (450000, Color.css "#fb923c"),
   (300000, Color.css "#fdba74")]

/-- Spec-side description of the discrete lookup: scanning the break
points from the highest down, return the color of the first one the
value strictly exceeds; values exceeding none get the palest color. -/
def specPriceColor (v : ℚ) : Color :=
  (((priceBreakTable.find? (fun p => decide (v > p.1))).map Prod.snd)).getD
    (Color.css "#fed7aa")

/-- C3: the discrete price ramp is the strict greater-than chain from the
highest threshold down to the lowest: `getPriceColor` agrees with the
spec-side first-match lookup everywhere, every value ≤ 300000 gets the
palest color, and a value exactly equal to a threshold falls into the
next lower bucket. -/
theorem getPriceColor_spec_refinement (v : ℚ) :
    getPriceColor v = specPriceColor v ∧
    (v ≤ 300000 → getPriceColor v = Color.css "#fed7aa") ∧
    getPriceColor 1500000 = Color.css "#7c2d12" ∧
    getPriceColor 1200000 = Color.css "#c2410c" ∧
    getPriceColor 1000000 = Color.css "#ea580c" ∧
    getPriceColor 800000 = Color.css "#f97316" ∧
    getPriceColor 600000 = Color.css "#fb923c" ∧
    getPriceColor 450000 = Color.css "#fdba74" ∧
    getPriceColor 300000 = Color.css "#fed7aa" := by
  refine ⟨?_, ?_, by decide, by decide, by decide, by decide, by decide,
    by decide, by decide⟩
  · unfold getPriceColor specPriceColor priceBreakTable
    by_cases h1 : v > 1500000
    · simp [List.find?, h1]
    · by_cases h2 : v > 1200000
      · simp [List.find?, h1, h2]
      · by_cases h3 : v > 1000000
        · simp [List.find?, h1, h2, h3]
        · by_cases h4 : v > 800000
          · simp [List.find?, h1, h2, h3, h4]
          · by_cases h5 : v > 600000
            · simp [List.find?, h1, h2, h3, h4, h5]
            · by_cases h6 : v > 450000
              · simp [List.find?, h1, h2, h3, h4, h5, h6]
              · by_cases h7 : v > 300000
                · simp [List.find?, h1, h2, h3, h4, h5, h6, h7]
                · simp [List.find?, h1, h2, h3, h4, h5, h6, h7]
  · intro h
    unfold getPriceColor
    split_ifs with h1 h2 h3 h4 h5 h6 h7
    · exact absurd h (by push_neg; linarith)
    · exact absurd h (by push_neg; linarith)
    · exact absurd h (by push_neg; linarith)
    · exact absurd h (by push_neg; linarith)
    · exact absurd h (by push_neg; linarith)
    · exact absurd h (by push_neg; linarith)
    · exact absurd h (by push_neg; linarith)
    · rfl

/-- Witness for C3 at v = 250000. -/
theorem getPriceColor_spec_refinement_witness :
    getPriceColor 250000 = specPriceColor 250000 ∧
    getPriceColor 250000 = Color.css "#fed7aa" :=
  ⟨(getPriceColor_spec_refinement 250000).1,
   (getPriceColor_spec_refinement 250000).2.1 (by norm_num)⟩

/-- C9 counterexample: the continuous ramp does not clamp its input to
[0, 1]: at value 2 (≥ 1) the crime ramp does not return the end color
rgb(220, 38, 38); it extrapolates past it. -/
theorem getScaleColor_clamp_cex :
    (1 : ℚ) ≤ 2 ∧ getCrimeColor 2 ≠ Color.rgb 220 38 38 := by
  refine ⟨by norm_num, ?_⟩
  have hr : getCrimeColor 2 = Color.rgb 185 (-179) (-179) := by
    simp only [getCrimeColor, getScaleColor, jsRound]
    norm_num [Int.floor_eq_iff]
  rw [hr]
  simp

/-- C9 amended: each channel of the continuous ramp is
round(start + (end - start) * value); at value 0 every mode yields the
start color (white) exactly and at value 1 the mode's end color exactly,
but the input is not clamped — values above 1 extrapolate linearly
(crime at 2 yields rgb(185, -179, -179)). -/
theorem getScaleColor_endpoints :
    (∀ v s e, getScaleColor v s e =
      Color.rgb (jsRound (s.r + (e.r - s.r) * v)) (jsRound (s.g + (e.g - s.g) * v))
        (jsRound (s.b + (e.b - s.b) * v))) ∧
    getCrimeColor 0 = Color.rgb 255 255 255 ∧
    getCrimeColor 1 = Color.rgb 220 38 38 ∧
    getCentralColor 0 = Color.rgb 255 255 255 ∧
    getCentralColor 1 = Color.rgb 37 99 235 ∧
    getCultureColor 0 = Color.rgb 255 255 255 ∧
    getCultureColor 1 = Color.rgb 217 119 6 ∧
    getCrimeColor 2 = Color.rgb 185 (-179) (-179) := by
  refine ⟨fun v s e => rfl, ?_, ?_, ?_, ?_, ?_, ?_, ?_⟩ <;>
    simp only [getCrimeColor, getCentralColor, getCultureColor, getScaleColor,
      jsRound] <;>
    norm_num [Int.floor_eq_iff]

/-- C4: in price mode, a resolved value strictly above the price ceiling
overrides the break-point lookup with the single darkest color. -/
theorem priceCeiling_overflow (st : ViewState)
    (store : List (String × MetricRecord)) (f : Feature) (dOp w : ℚ)
    (bc : Color) (fOp : ℚ) (data : MetricRecord)
    (hm : st.currentMode = Mode.price)
    (hd : store.lookup f.name = some data)
    (hv : resolvePriceValue st.currentYear st.currentType data > st.maxPrice) :
    (getFeatureStyle st store f dOp w bc fOp).fillColor = Color.css "#431407" := by
  unfold getFeatureStyle
  rw [hd, hm]
  simp [hv]

/-- The scenario record of the spec: 2025 prices detached 900000 and
flat 500000, scores arbitrary. -/
def sampleRecord : MetricRecord :=
  { prices := [(2025, [(PropType.detached, 900000), (PropType.flat, 500000)])]
    crime := 1/2
    central := 1/2
    culture := 1/2 }

/-- A one-region metric store holding the scenario record. -/
def sampleStore : List (String × MetricRecord) :=
  [("Camden", sampleRecord)]

/-- A fine region named Camden whose bounding-box centroid is (5, 5). -/
def camdenSquare : Feature :=
  ⟨"Camden", [(4, 4), (6, 4), (6, 6), (4, 6)]⟩

/-- The default view: price mode, year 2025, all types, ceiling 5000000. -/
def defaultView : ViewState :=
  ⟨Mode.price, 2025, PropSel.all, 5000000⟩

/-- The overflow-scenario view: price ceiling lowered to 600000. -/
def cappedView : ViewState :=
  ⟨Mode.price, 2025, PropSel.all, 600000⟩

/-- The scenario value: the all-types mean of the sample record for 2025
is (900000 + 500000) / 2 = 700000. -/
theorem resolve_sample_val :
    resolvePriceValue 2025 PropSel.all sampleRecord = 700000 := by
  simp [resolvePriceValue, sampleRecord, List.lookup]
  norm_num

/-- Witness for C4: ceiling 600000 and resolved value 700000 give the
darkest fixed color. -/
theorem priceCeiling_overflow_witness :
    (getFeatureStyle cappedView sampleStore camdenSquare 0.8 2
      (Color.css "white") 0.6).fillColor = Color.css "#431407" :=
  priceCeiling_overflow cappedView sampleStore camdenSquare 0.8 2
    (Color.css "white") 0.6 sampleRecord rfl rfl
    (by rw [show cappedView.currentYear = 2025 from rfl,
        show cappedView.currentType = PropSel.all from rfl, resolve_sample_val]
        norm_num [cappedView])

/-- C2: the borough click handler sets the focus feature, fits the
viewport, restyles the fine layer when it exists, and then calls
updatePostcodeLabels, which is declared nowhere in the script — so every
focus activation ends in a ReferenceError instead of returning normally. -/
theorem borough_click_reference_error (f : Feature) (pl : Bool) (s : ClickState) :
    ("updatePostcodeLabels" ∈ definedFunctions → False) ∧
    (onBoroughClick f pl s).1.activeBorough = some f ∧
    (onBoroughClick f pl s).1.viewportFitted = true ∧
    (pl = true → (onBoroughClick f pl s).1.postcodeRestyled = true) ∧
    (onBoroughClick f pl s).2 = JsResult.referenceError "updatePostcodeLabels" := by
  refine ⟨by decide, ?_, ?_, ?_, ?_⟩
  · cases pl <;> rfl
  · cases pl <;> rfl
  · intro hpl
    subst hpl
    rfl
  · cases pl <;> rfl

/-- Witness for C2 with the postcode layer existing. -/
theorem borough_click_reference_error_witness :
    (onBoroughClick camdenSquare true ⟨none, false, false⟩).1.postcodeRestyled = true ∧
    (onBoroughClick camdenSquare true ⟨none, false, false⟩).2 =
      JsResult.referenceError "updatePostcodeLabels" :=
  ⟨(borough_click_reference_error camdenSquare true ⟨none, false, false⟩).2.2.2.1 rfl,
   (borough_click_reference_error camdenSquare true ⟨none, false, false⟩).2.2.2.2⟩

/-- Shared lemma: in price mode, when the resolved value does not exceed
the ceiling, the fill color is exactly the discrete ramp's color for the
resolved value. -/
theorem fillColor_no_overflow (st : ViewState)
    (store : List (String × MetricRecord)) (f : Feature) (dOp w : ℚ)
    (bc : Color) (fOp : ℚ) (data : MetricRecord)
    (hm : st.currentMode = Mode.price)
    (hd : store.lookup f.name = some data)
    (hv : ¬ resolvePriceValue st.currentYear st.currentType data > st.maxPrice) :
    (getFeatureStyle st store f dOp w bc fOp).fillColor =
      getPriceColor (resolvePriceValue st.currentYear st.currentType data) := by
  unfold getFeatureStyle
  rw [hd, hm]
  simp [hv]

/-- A record holding no prices at all. -/
def emptyRecord : MetricRecord :=
  { prices := [], crime := 0, central := 0, culture := 0 }

/-- A two-region store: the scenario record plus an empty record. -/
def sampleStore2 : List (String × MetricRecord) :=
  [("Camden", sampleRecord), ("Empty", emptyRecord)]

/-- C7: price-mode value resolution — missing year resolves to 0; with
type `all` the value is the arithmetic mean of the entries present for
the year; with a specific type it is that entry or 0 when absent; and the
2025 scenario record (detached 900000, flat 500000) resolves to 700000
whose bucket color is #f97316. -/
theorem price_value_resolution :
    (∀ (year : Int) (data : MetricRecord), data.prices.lookup year = none →
      resolvePriceValue year PropSel.all data = 0) ∧
    (∀ (year : Int) (data : MetricRecord) (prices : List (PropType × ℚ)),
      data.prices.lookup year = some prices → prices ≠ [] →
      resolvePriceValue year PropSel.all data =
        (prices.map Prod.snd).sum / ((prices.map Prod.snd).length : ℚ)) ∧
    (∀ (year : Int) (data : MetricRecord) (prices : List (PropType × ℚ))
      (t : PropType), data.prices.lookup year = some prices →
      resolvePriceValue year (PropSel.specific t) data = (prices.lookup t).getD 0) ∧
    resolvePriceValue 2025 PropSel.all sampleRecord = 700000 ∧
    (getFeatureStyle defaultView sampleStore camdenSquare 0.9 1
      (Color.css "#eee") 0.8).fillColor = Color.css "#f97316" := by
  refine ⟨?_, ?_, ?_, resolve_sample_val, ?_⟩
  · intro year data h
    simp [resolvePriceValue, h]
  · intro year data prices h hne
    simp [resolvePriceValue, h, List.length_eq_zero, hne]
  · intro year data prices t h
    simp [resolvePriceValue, h]
  · have hbase := fillColor_no_overflow defaultView sampleStore camdenSquare
      0.9 1 (Color.css "#eee") 0.8 sampleRecord rfl rfl
      (by rw [show defaultView.currentYear = 2025 from rfl,
          show defaultView.currentType = PropSel.all from rfl, resolve_sample_val]
          norm_num [defaultView])
    rw [hbase, show defaultView.currentYear = 2025 from rfl,
      show defaultView.currentType = PropSel.all from rfl, resolve_sample_val]
    decide

/-- Witness for C7 at the concrete record: missing year 2024 gives 0,
2025 all-types gives 700000, specific type flat gives 500000. -/
theorem price_value_resolution_witness :
    resolvePriceValue 2024 PropSel.all sampleRecord = 0 ∧
    resolvePriceValue 2025 PropSel.all sampleRecord = 700000 ∧
    resolvePriceValue 2025 (PropSel.specific PropType.flat) sampleRecord = 500000 := by
  refine ⟨price_value_resolution.1 2024 sampleRecord rfl,
    price_value_resolution.2.2.2.1, ?_⟩
  rw [price_value_resolution.2.2.1 2025 sampleRecord
    [(PropType.detached, 900000), (PropType.flat, 500000)] PropType.flat rfl]
  rfl

/-- C8: the style resolver never propagates missing data as an error —
a region absent from the store gets the fixed neutral unknown style
(light grey #ccc fill at reduced opacity 0.2); a record lacking the
selected year or property type resolves its value to 0 and styling
proceeds normally (bucket color of 0, the palest color). -/
theorem missing_data_handling (st : ViewState)
    (store : List (String × MetricRecord)) (f : Feature) (dOp w : ℚ)
    (bc : Color) (fOp : ℚ) :
    (store.lookup f.name = none →
      getFeatureStyle st store f dOp w bc fOp = unknownStyle w bc) ∧
    unknownStyle w bc = { fillColor := Color.css "#ccc"
                          weight := w
                          opacity := 1
                          color := bc
                          dashArray := none
                          fillOpacity := 0.2
                          interactive := none } ∧
    (∀ data : MetricRecord, data.prices.lookup st.currentYear = none →
      resolvePriceValue st.currentYear st.currentType data = 0) ∧
    (∀ (data : MetricRecord) (prices : List (PropType × ℚ)) (t : PropType),
      data.prices.lookup st.currentYear = some prices →
      prices.lookup t = none →
      resolvePriceValue st.currentYear (PropSel.specific t) data = 0) ∧
    (∀ data : MetricRecord, st.currentMode = Mode.price →
      store.lookup f.name = some data → 0 ≤ st.maxPrice →
      resolvePriceValue st.currentYear st.currentType data = 0 →
      (getFeatureStyle st store f dOp w bc fOp).fillColor =
        Color.css "#fed7aa") := by
  refine ⟨?_, rfl, ?_, ?_, ?_⟩
  · intro h
    unfold getFeatureStyle
    rw [h]
  · intro data h
    cases hpt : st.currentType <;> simp [resolvePriceValue, h]
  · intro data prices t h1 h2
    simp [resolvePriceValue, h1, h2]
  · intro data hm hd hle hv0
    have hbase := fillColor_no_overflow st store f dOp w bc fOp data hm hd
      (by rw [hv0]; exact not_lt.mpr hle)
    rw [hbase, hv0]
    decide

/-- Witness for C8: an unknown region gets the unknown style; the empty
record resolves 2025 to 0; the scenario record resolves the absent type
semi to 0; and the empty record's region renders the palest bucket. -/
theorem missing_data_handling_witness :
    getFeatureStyle defaultView sampleStore ⟨"Nowhere", []⟩ 0.9 1
      (Color.css "#eee") 0.8 = unknownStyle 1 (Color.css "#eee") ∧
    resolvePriceValue 2025 PropSel.all emptyRecord = 0 ∧
    resolvePriceValue 2025 (PropSel.specific PropType.semi) sampleRecord = 0 ∧
    (getFeatureStyle defaultView sampleStore2 ⟨"Empty", []⟩ 0.9 1
      (Color.css "#eee") 0.8).fillColor = Color.css "#fed7aa" :=
  ⟨(missing_data_handling defaultView sampleStore ⟨"Nowhere", []⟩ 0.9 1
      (Color.css "#eee") 0.8).1 rfl,
   (missing_data_handling defaultView sampleStore ⟨"Nowhere", []⟩ 0.9 1
      (Color.css "#eee") 0.8).2.2.1 emptyRecord rfl,
   (missing_data_handling defaultView sampleStore ⟨"Camden", []⟩ 0.9 1
      (Color.css "#eee") 0.8).2.2.2.1 sampleRecord
      [(PropType.detached, 900000), (PropType.flat, 500000)] PropType.semi
      rfl rfl,
   (missing_data_handling defaultView sampleStore2 ⟨"Empty", []⟩ 0.9 1
      (Color.css "#eee") 0.8).2.2.2.2 emptyRecord rfl rfl
      (by norm_num [defaultView]) rfl⟩

/-- C1: the price-mode legend has exactly 8 (swatch, label) entries; the
ramp's break points listed ascending; the i-th swatch color equals
`getPriceColor (breakpoint_i + 1)` for the i-th ascending ramp break
point; and in price mode without overflow the resolver fills with exactly
`getPriceColor value`, so each swatch is the color rendered for a value
in its bucket. -/
theorem legend_matches_ramp :
    updateLegendPrice.length = 8 ∧
    List.Chain' (fun a b : ℚ => a < b) rampBreakPoints ∧
    updateLegendPrice.map Prod.fst =
      rampBreakPoints.map (fun b => getPriceColor (b + 1)) ∧
    (∀ (st : ViewState) (store : List (String × MetricRecord)) (f : Feature)
      (dOp w : ℚ) (bc : Color) (fOp : ℚ) (data : MetricRecord),
      st.currentMode = Mode.price → store.lookup f.name = some data →
      ¬ resolvePriceValue st.currentYear st.currentType data > st.maxPrice →
      (getFeatureStyle st store f dOp w bc fOp).fillColor =
        getPriceColor (resolvePriceValue st.currentYear st.currentType data)) := by
  refine ⟨rfl, ?_, ?_, ?_⟩
  · simp [rampBreakPoints, List.chain'_cons]
    norm_num
  · simp only [updateLegendPrice, legendGrades, legendLabels, rampBreakPoints,
      List.zip, List.zipWith, List.map, getPriceColor]
    norm_num
  · intro st store f dOp w bc fOp data hm hd hv
    exact fillColor_no_overflow st store f dOp w bc fOp data hm hd hv

/-- Witness for C1's resolver conjunct at the scenario region: the
rendered fill equals the ramp color of the resolved value. -/
theorem legend_matches_ramp_witness :
    (getFeatureStyle defaultView sampleStore camdenSquare 0.8 2
      (Color.css "white") 0.6).fillColor =
      getPriceColor
        (resolvePriceValue defaultView.currentYear defaultView.currentType
          sampleRecord) :=
  legend_matches_ramp.2.2.2 defaultView sampleStore camdenSquare 0.8 2
    (Color.css "white") 0.6 sampleRecord rfl rfl
    (by rw [show defaultView.currentYear = 2025 from rfl,
        show defaultView.currentType = PropSel.all from rfl, resolve_sample_val]
        norm_num [defaultView])

/-- Shared lemma: after one zoom notification the mounted layers are
fully determined by which side of the threshold the zoom level lies on. -/
theorem handleZoomChange_sides (z : ℚ) (s : LayerState) :
    (z ≥ MAP_ZOOM_SELECTED - 1 →
      (handleZoomChange z s).boroughMounted = false ∧
      (handleZoomChange z s).postcodeMounted = true) ∧
    (¬ z ≥ MAP_ZOOM_SELECTED - 1 →
      (handleZoomChange z s).boroughMounted = true ∧
      (handleZoomChange z s).postcodeMounted = false) := by
  rcases s with ⟨b, p, l⟩
  constructor <;> intro h <;> cases b <;> cases p <;>
    simp [handleZoomChange, h]

/-- C5: starting from the initial Coarse-visible state, after every
sequence of zoom notifications exactly one of the two layers is mounted;
after a notification with level z the fine layer is mounted iff
z ≥ MAP_ZOOM_SELECTED - 1 (= 11); and a repeated notification on the same
side of the threshold is a no-op on the whole layer state. -/
theorem detail_level_controller_invariant :
    exactlyOneLayer initialLayers ∧
    (∀ zs : List ℚ, exactlyOneLayer (runZoom zs)) ∧
    (∀ (zs : List ℚ) (z : ℚ),
      (runZoom (zs ++ [z])).postcodeMounted = true ↔
        z ≥ MAP_ZOOM_SELECTED - 1) ∧
    (∀ (z z' : ℚ) (s : LayerState),
      (z ≥ MAP_ZOOM_SELECTED - 1 ↔ z' ≥ MAP_ZOOM_SELECTED - 1) →
      handleZoomChange z' (handleZoomChange z s) = handleZoomChange z s) := by
  have hone : ∀ (z : ℚ) (s : LayerState), exactlyOneLayer (handleZoomChange z s) := by
    intro z s
    by_cases h : z ≥ MAP_ZOOM_SELECTED - 1
    · exact Or.inr ((handleZoomChange_sides z s).1 h)
    · exact Or.inl ((handleZoomChange_sides z s).2 h)
  have hfold : ∀ (zs : List ℚ) (s : LayerState), exactlyOneLayer s →
      exactlyOneLayer (zs.foldl (fun s z => handleZoomChange z s) s) := by
    intro zs
    induction zs with
    | nil => exact fun s hs => hs
    | cons z zs ih => exact fun s _ => ih (handleZoomChange z s) (hone z s)
  refine ⟨Or.inl ⟨rfl, rfl⟩, ?_, ?_, ?_⟩
  · intro zs
    exact hfold zs initialLayers (Or.inl ⟨rfl, rfl⟩)
  · intro zs z
    have happ : runZoom (zs ++ [z]) = handleZoomChange z (runZoom zs) := by
      unfold runZoom
      rw [List.foldl_append]
      rfl
    rw [happ]
    by_cases h : z ≥ MAP_ZOOM_SELECTED - 1
    · simp [((handleZoomChange_sides z (runZoom zs)).1 h).2, h]
    · simp [((handleZoomChange_sides z (runZoom zs)).2 h).2, h]
  · intro z z' s hiff
    by_cases h : z ≥ MAP_ZOOM_SELECTED - 1
    · have h' : z' ≥ MAP_ZOOM_SELECTED - 1 := hiff.mp h
      rcases s with ⟨b, p, l⟩
      cases b <;> cases p <;> simp [handleZoomChange, h, h']
    · have h' : ¬ z' ≥ MAP_ZOOM_SELECTED - 1 := fun hh => h (hiff.mpr hh)
      rcases s with ⟨b, p, l⟩
      cases b <;> cases p <;> simp [handleZoomChange, h, h']

/-- Witness for C5: the zoom sequence 10, 12, 12 keeps exactly one layer
mounted, and repeating the notification at level 12 is a no-op. -/
theorem detail_level_controller_invariant_witness :
    exactlyOneLayer (runZoom [10, 12, 12]) ∧
    handleZoomChange 12 (handleZoomChange 12 initialLayers) =
      handleZoomChange 12 initialLayers :=
  ⟨detail_level_controller_invariant.2.1 [10, 12, 12],
   detail_level_controller_invariant.2.2.2 12 12 initialLayers Iff.rfl⟩

/-- Characterization of one ray-cast step as a proposition. -/
theorem edgeCrossing_true_iff (p a b : Pt) :
    edgeCrossing p a b = true ↔
      ¬ ((a.2 > p.2) ↔ (b.2 > p.2)) ∧
        p.1 < (b.1 - a.1) * (p.2 - a.2) / (b.2 - a.2) + a.1 := by
  unfold edgeCrossing
  simp [bne_iff_ne, decide_eq_decide]

/-- Negated characterization of one ray-cast step. -/
theorem edgeCrossing_false_iff (p a b : Pt) :
    edgeCrossing p a b = false ↔
      ¬ (¬ ((a.2 > p.2) ↔ (b.2 > p.2)) ∧
        p.1 < (b.1 - a.1) * (p.2 - a.2) / (b.2 - a.2) + a.1) := by
  rw [← edgeCrossing_true_iff]
  cases h : edgeCrossing p a b <;> simp

/-- A coarse focus region: the axis-aligned square with corners (0,0)
and (10,10). -/
def focusSquare : Feature :=
  ⟨"SquareBorough", [(0, 0), (10, 0), (10, 10), (0, 10)]⟩

/-- A fine region far outside the focus square (centroid (50, 50)). -/
def farSquare : Feature :=
  ⟨"Far", [(40, 40), (60, 40), (60, 60), (40, 60)]⟩

/-- A degenerate focus polygon: all three vertices coincide. -/
def degenerateBorough : Feature :=
  ⟨"Degenerate", [(0, 0), (0, 0), (0, 0)]⟩

/-- The bounding-box centroid of the Camden square is (5, 5). -/
theorem camdenCenter : turfCenter camdenSquare.geometry = ((5 : ℚ), (5 : ℚ)) := by
  norm_num [turfCenter, camdenSquare, List.foldl_cons, List.foldl_nil,
    List.map_cons, List.map_nil, min_def, max_def]

/-- The bounding-box centroid of the far square is (50, 50). -/
theorem farCenter : turfCenter farSquare.geometry = ((50 : ℚ), (50 : ℚ)) := by
  norm_num [turfCenter, farSquare, List.foldl_cons, List.foldl_nil,
    List.map_cons, List.map_nil, min_def, max_def]

/-- The Camden square's centroid lies inside the focus square. -/
theorem camden_in_focusSquare :
    booleanPointInPolygon (turfCenter camdenSquare.geometry)
      focusSquare.geometry = true := by
  rw [camdenCenter]
  norm_num [booleanPointInPolygon, focusSquare, ringEdges,
    List.zip_cons_cons, List.zip_nil_right, List.cons_append, List.nil_append,
    List.foldl_cons, List.foldl_nil, edgeCrossing_true_iff]

/-- The far square's centroid lies outside the focus square. -/
theorem far_out_focusSquare :
    booleanPointInPolygon (turfCenter farSquare.geometry)
      focusSquare.geometry = false := by
  rw [farCenter]
  norm_num [booleanPointInPolygon, focusSquare, ringEdges,
    List.zip_cons_cons, List.zip_nil_right, List.cons_append, List.nil_append,
    List.foldl_cons, List.foldl_nil, edgeCrossing_true_iff]

/-- No point is inside the degenerate polygon; in particular the Camden
square's centroid is classified outside it. -/
theorem camden_out_degenerate :
    booleanPointInPolygon (turfCenter camdenSquare.geometry)
      degenerateBorough.geometry = false := by
  rw [camdenCenter]
  norm_num [booleanPointInPolygon, degenerateBorough, ringEdges,
    List.zip_cons_cons, List.zip_nil_right, List.cons_append, List.nil_append,
    List.foldl_cons, List.foldl_nil, edgeCrossing_true_iff]

/-- C6: with a focus active (and the containment engine present), a fine
region whose bounding-box centroid is classified outside the focus
polygon gets the fully transparent, zero-weight, non-interactive style;
one classified inside gets the normal metric-driven style with a thicker,
whiter border (weight 1.5, border #fff); with no focus active every fine
region gets its ordinary metric-driven style. -/
theorem focus_filter_styles (st : ViewState)
    (store : List (String × MetricRecord)) (td : Bool) (geom f : Feature) :
    (booleanPointInPolygon (turfCenter f.geometry) geom.geometry = false →
      stylePostcode st store true (some geom) f = hiddenPostcodeStyle) ∧
    (booleanPointInPolygon (turfCenter f.geometry) geom.geometry = true →
      stylePostcode st store true (some geom) f =
        getFeatureStyle st store f 0.9 1.5 (Color.css "#fff") 0.9) ∧
    stylePostcode st store td none f =
      getFeatureStyle st store f 0.9 1 (Color.css "#eee") 0.8 ∧
    hiddenPostcodeStyle.fillOpacity = 0 ∧
    hiddenPostcodeStyle.weight = 0 ∧
    hiddenPostcodeStyle.interactive = some false := by
  refine ⟨?_, ?_, ?_, rfl, rfl, rfl⟩
  · intro h
    simp [stylePostcode, h]
  · intro h
    simp [stylePostcode, h]
  · cases td <;> rfl

/-- Witness for C6: against the square focus region, the far region is
hidden and the Camden region gets the emphasized metric style. -/
theorem focus_filter_styles_witness :
    stylePostcode defaultView sampleStore true (some focusSquare) farSquare =
      hiddenPostcodeStyle ∧
    stylePostcode defaultView sampleStore true (some focusSquare) camdenSquare =
      getFeatureStyle defaultView sampleStore camdenSquare 0.9 1.5
        (Color.css "#fff") 0.9 :=
  ⟨(focus_filter_styles defaultView sampleStore true focusSquare farSquare).1
      far_out_focusSquare,
   (focus_filter_styles defaultView sampleStore true focusSquare
      camdenSquare).2.1 camden_in_focusSquare⟩

/-- C10 counterexample: with the containment engine present and a
degenerate focus polygon (all vertices equal), the point-in-polygon
evaluation classifies the Camden region outside, so stylePostcode hides
it (transparent, non-interactive) instead of defaulting it to inside. -/
theorem focus_fail_open_cex :
    stylePostcode defaultView sampleStore true (some degenerateBorough)
      camdenSquare = hiddenPostcodeStyle ∧
    hiddenPostcodeStyle.fillOpacity = 0 ∧
    hiddenPostcodeStyle.interactive = some false := by
  refine ⟨?_, rfl, rfl⟩
  simp [stylePostcode, camden_out_degenerate]

/-- C10 amended: the fail-open path exists only when the containment
engine itself is unavailable (typeof turf is undefined): then
stylePostcode skips focus filtering and styles every fine region with the
ordinary visible metric-driven style, for any focus geometry. -/
theorem focus_fail_open_amended (st : ViewState)
    (store : List (String × MetricRecord)) (geom : Option Feature)
    (f : Feature) :
    stylePostcode st store false geom f =
      getFeatureStyle st store f 0.9 1 (Color.css "#eee") 0.8 := by
  rcases geom with _ | g <;> rfl
